import Mathlib

/-!
Verification of the in-process vector similarity index implemented in
`src/core/Chroma.py` (class `ChromaVectorDB` and its collaborators).

Modelling conventions:
- Python floats are modelled as rationals (`ℚ`) for the store and query
  engine, whose behaviour is pure control flow over scores; the cosine
  similarity strategy, which takes square roots, is modelled over `ℝ`.
- The `ConfigSingleton` is a shared mutable object; `ChromaVectorDB.__init__`
  stores a reference to it (`self._config = ConfigSingleton()`) and the
  methods dereference `self._config.max_items` / `self._config.similarity_threshold`
  at call time.  Explicit state passing therefore hands the configuration's
  current value to each call that dereferences it.
- A Python method that can raise is modelled as returning
  `Except DBError α × ChromaVectorDB × List Event`: the result (or the
  exception), the state at return (or raise) time, and the trace of events
  pushed through `_notify_observers` during the call.
- A Python dict is modelled as an insertion-ordered association list
  (Python 3.7+ dict semantics: assignment to an existing key keeps its
  position, a new key is appended at the end).
- Observers are side-effecting callbacks; they are modelled by opaque
  identities (`Nat`), and `_notify_observers` by the list of deliveries
  it performs, in subscription order.
-/

namespace Chroma

/-- Python `Dict[str, Any]` metadata, modelled as an association list of
string keys to string values (the claims never inspect the values). -/
abbrev Metadata := List (String × String)

/-- An event pushed through `_notify_observers`: the `event_type` string
together with the payload dict actually passed at each call site of
`_notify_observers` in `Chroma.py`. -/
inductive Event where
  | add (id : String) (metadata : Option Metadata)
  | update (id : String)
  | delete (id : String)
  | clear (message : String)
deriving DecidableEq

/-- The exceptions raised by `ChromaVectorDB` methods:
`ValueError` (dimension mismatch) and `RuntimeError` (capacity reached). -/
inductive DBError where
  | valueError (msg : String)
  | runtimeError (msg : String)
deriving DecidableEq

/-- Python `str(e)` on a caught exception: its message. -/
def DBError.message : DBError → String
  | .valueError m => m
  | .runtimeError m => m

/-- `ConfigSingleton._initialize` in `Chroma.py`: the process-wide mutable
configuration object with its default field values. -/
structure ConfigSingleton where
  default_embedding_dim : Nat := 128
  similarity_threshold : ℚ := 4 / 5
  max_items : Nat := 10000
deriving DecidableEq

/-- `VectorItem` in `Chroma.py`: id, vector, metadata
(`metadata or {}`, so a missing metadata argument becomes the empty dict)
and the hard-coded creation marker. -/
structure VectorItem where
  id : String
  vector : List ℚ
  metadata : Metadata
  created_at : String := "2026-02-09"
deriving DecidableEq

/-- `ChromaVectorDB.__init__`: the embedding dimension and the similarity
strategy are fixed at construction; `_items` starts empty; `_observers`
starts empty.  `self._config` is a reference to the shared `ConfigSingleton`,
so it is not copied into the state (its current value is a parameter of the
methods that dereference it). -/
structure ChromaVectorDB where
  embedding_dim : Nat := 128
  similarity_strategy : List ℚ → List ℚ → ℚ
  items : List VectorItem := []
  observers : List Nat := []

/-- Python `id in self._items` on the items dict. -/
def hasId (items : List VectorItem) (id : String) : Bool :=
  items.any (fun it => it.id == id)

/-- Python `self._items[id] = item`: replace in place when the key exists
(keeping its position), append otherwise. -/
def dictSet (items : List VectorItem) (item : VectorItem) : List VectorItem :=
  if hasId items item.id then
    items.map (fun it => if it.id == item.id then item else it)
  else
    items ++ [item]

/-- `ChromaVectorDB.add_observer`: appends to the observer list. -/
def ChromaVectorDB.add_observer (db : ChromaVectorDB) (o : Nat) : ChromaVectorDB :=
  { db with observers := db.observers ++ [o] }

/-- `ChromaVectorDB._notify_observers`: delivers the event to every
subscribed observer, in subscription order. -/
def ChromaVectorDB.notify_observers (db : ChromaVectorDB) (e : Event) :
    List (Nat × Event) :=
  db.observers.map (fun o => (o, e))

/-- `ChromaVectorDB.add`.  Checks the vector dimension (raising `ValueError`),
then the capacity against the call-time value of `self._config.max_items`
(raising `RuntimeError`), then stores a fresh `VectorItem` and emits one
`add` event carrying the id and the metadata argument. -/
def ChromaVectorDB.add (db : ChromaVectorDB) (config : ConfigSingleton)
    (id : String) (vector : List ℚ) (metadata : Option Metadata) :
    Except DBError Bool × ChromaVectorDB × List Event :=
  if vector.length ≠ db.embedding_dim then
    (.error (.valueError ("Vector dimension must be " ++ toString db.embedding_dim)), db, [])
  else if config.max_items ≤ db.items.length then
    (.error (.runtimeError "Database capacity reached"), db, [])
  else
    let item : VectorItem := { id := id, vector := vector, metadata := metadata.getD [] }
    (.ok true, { db with items := dictSet db.items item }, [Event.add id metadata])

/-- `ChromaVectorDB.count`: number of keys of the items dict. -/
def ChromaVectorDB.count (db : ChromaVectorDB) : Nat :=
  db.items.length

/-- `ChromaVectorDB.get`: lookup by id, `none` when absent. -/
def ChromaVectorDB.get (db : ChromaVectorDB) (id : String) : Option VectorItem :=
  db.items.find? (fun it => it.id == id)

/-- One element of the list passed to `ChromaVectorDB.batch_add`:
a dict with an `id`, a `vector` and optional `metadata`. -/
structure BatchItem where
  id : String
  vector : List ℚ
  metadata : Option Metadata

/-- The dict returned by `ChromaVectorDB.batch_add`. -/
structure BatchResult where
  success_count : Nat
  failed_count : Nat
  failed_items : List (String × String)
deriving DecidableEq

/-- `ChromaVectorDB.batch_add`: tries `add` on every item in input order;
a raised exception is caught, recorded as `(id, str(e))` in `failed_items`,
and the loop continues with the remaining items. -/
def ChromaVectorDB.batch_add :
    ChromaVectorDB → ConfigSingleton → List BatchItem →
    BatchResult × ChromaVectorDB × List Event
  | db, _, [] => ({ success_count := 0, failed_count := 0, failed_items := [] }, db, [])
  | db, config, item :: rest =>
    match ChromaVectorDB.add db config item.id item.vector item.metadata with
    | (Except.ok _, db1, evs) =>
      let r := ChromaVectorDB.batch_add db1 config rest
      ({ success_count := r.1.success_count + 1, failed_count := r.1.failed_count,
         failed_items := r.1.failed_items }, r.2.1, evs ++ r.2.2)
    | (Except.error e, db1, evs) =>
      let r := ChromaVectorDB.batch_add db1 config rest
      ({ success_count := r.1.success_count, failed_count := r.1.failed_count + 1,
         failed_items := (item.id, DBError.message e) :: r.1.failed_items }, r.2.1, evs ++ r.2.2)

/-- The `if metadata is not None: item.metadata = metadata` step of
`ChromaVectorDB.update` (a full overwrite of the record's metadata). -/
def applyMetadata (db : ChromaVectorDB) (id : String) :
    Option Metadata → ChromaVectorDB
  | some m =>
    { db with items := db.items.map (fun it =>
        if it.id == id then { it with metadata := m } else it) }
  | none => db

/-- `ChromaVectorDB.update`: returns `False` when the id is absent;
a supplied vector of the wrong length raises `ValueError` before any field
of the record is touched; otherwise the supplied fields are overwritten in
place and one `update` event is emitted. -/
def ChromaVectorDB.update (db : ChromaVectorDB) (id : String)
    (vector : Option (List ℚ)) (metadata : Option Metadata) :
    Except DBError Bool × ChromaVectorDB × List Event :=
  if hasId db.items id = false then
    (.ok false, db, [])
  else
    match vector with
    | some v =>
      if v.length ≠ db.embedding_dim then
        (.error (.valueError ("Vector dimension must be " ++ toString db.embedding_dim)), db, [])
      else
        let db1 := { db with items := db.items.map (fun it =>
          if it.id == id then { it with vector := v } else it) }
        let db2 := applyMetadata db1 id metadata
        (.ok true, db2, [Event.update id])
    | none =>
      let db2 := applyMetadata db id metadata
      (.ok true, db2, [Event.update id])

/-- `ChromaVectorDB.delete`: returns `False` when the id is absent,
otherwise removes the entry and emits one `delete` event. -/
def ChromaVectorDB.delete (db : ChromaVectorDB) (id : String) :
    Except DBError Bool × ChromaVectorDB × List Event :=
  if hasId db.items id = false then
    (.ok false, db, [])
  else
    (.ok true, { db with items := db.items.filter (fun it => it.id != id) },
      [Event.delete id])

/-- `ChromaVectorDB.clear`: empties the items dict and emits a single
`clear` event. -/
def ChromaVectorDB.clear (db : ChromaVectorDB) : ChromaVectorDB × List Event :=
  ({ db with items := [] }, [Event.clear "Database cleared"])

/-- One element of the list returned by `ChromaVectorDB.query`. -/
structure QueryResult where
  id : String
  similarity : ℚ
  metadata : Metadata
deriving DecidableEq

/-- The sort relation of `results.sort(key=lambda x: x["similarity"], reverse=True)`:
`x` may come before `y` when `x`'s similarity is at least `y`'s. -/
def descBySim (x y : QueryResult) : Prop :=
  y.similarity ≤ x.similarity

instance : DecidableRel descBySim := fun x y =>
  inferInstanceAs (Decidable (y.similarity ≤ x.similarity))

instance : IsTotal QueryResult descBySim :=
  ⟨fun a b => le_total b.similarity a.similarity⟩

instance : IsTrans QueryResult descBySim :=
  ⟨fun _ _ _ hab hbc => le_trans hbc hab⟩

/-- Python list slicing `l[:k]` for a possibly negative `k`:
for `k ≥ 0` the first `k` elements, for `k < 0` everything up to index
`len(l) + k` (clamped at zero). -/
def pySlice (l : List α) (k : Int) : List α :=
  if k < 0 then l.take ((l.length : Int) + k).toNat else l.take k.toNat

/-- Python `if filter and not filter(item.metadata): continue` — a record
passes when no filter is supplied or the filter accepts its metadata. -/
def matchesFilter : Option (Metadata → Bool) → Metadata → Bool
  | none, _ => true
  | some f, m => f m

/-- `ChromaVectorDB.query`: checks the query vector dimension (raising
`ValueError`); scores every stored item in insertion order with the bound
strategy, skipping items rejected by the optional filter; keeps scores
reaching the call-time value of `self._config.similarity_threshold`;
sorts stably by descending similarity (Python `list.sort` with
`reverse=True`); returns the slice `results[:top_k]`. -/
def ChromaVectorDB.query (db : ChromaVectorDB) (config : ConfigSingleton)
    (query_vector : List ℚ) (top_k : Int) (filter : Option (Metadata → Bool)) :
    Except DBError (List QueryResult) :=
  if query_vector.length ≠ db.embedding_dim then
    .error (.valueError ("Query vector dimension must be " ++ toString db.embedding_dim))
  else
    let results := db.items.filterMap (fun item =>
      if matchesFilter filter item.metadata then
        let similarity := db.similarity_strategy query_vector item.vector
        if config.similarity_threshold ≤ similarity then
          some { id := item.id, similarity := similarity, metadata := item.metadata }
        else none
      else none)
    let sorted := results.insertionSort descBySim
    .ok (pySlice sorted top_k)

/-- `np.dot` on equal-length real vectors. -/
noncomputable def npDot (a b : List ℝ) : ℝ :=
  (List.zipWith (fun x y => x * y) a b).sum

/-- `np.linalg.norm`: the Euclidean norm, the square root of the sum of
squares. -/
noncomputable def npLinalgNorm (v : List ℝ) : ℝ :=
  Real.sqrt ((v.map (fun x => x * x)).sum)

/-- `CosineSimilarity.calculate` in `Chroma.py`: dot product over the
product of the norms, returning `0.0` when either norm is zero. -/
noncomputable def CosineSimilarity.calculate (vector1 vector2 : List ℝ) : ℝ :=
  let dot_product := npDot vector1 vector2
  let norm1 := npLinalgNorm vector1
  let norm2 := npLinalgNorm vector2
  if norm1 = 0 ∨ norm2 = 0 then 0
  else dot_product / (norm1 * norm2)

instance {ε α : Type} [DecidableEq ε] [DecidableEq α] : DecidableEq (Except ε α) := fun x y =>
  match x, y with
  | .ok a, .ok b => if h : a = b then .isTrue (by rw [h]) else .isFalse (by simp [h])
  | .error a, .error b => if h : a = b then .isTrue (by rw [h]) else .isFalse (by simp [h])
  | .ok _, .error _ => .isFalse (by simp)
  | .error _, .ok _ => .isFalse (by simp)

/-! Helper lemmas about the query engine's building blocks. -/

/-- A Python slice `l[:k]` is a sublist of `l`. -/
theorem pySlice_sublist (l : List α) (k : Int) : List.Sublist (pySlice l k) l := by
  unfold pySlice
  split <;> exact List.take_sublist _ _

/-- For a positive bound `k`, the slice `l[:k]` has at most `k` elements. -/
theorem pySlice_length_le (l : List α) (k : Int) (hk : 0 < k) :
    ((pySlice l k).length : Int) ≤ k := by
  unfold pySlice
  rw [if_neg (by omega)]
  calc ((l.take k.toNat).length : Int) ≤ (k.toNat : Int) := by
        exact_mod_cast List.length_take_le _ _
    _ = k := Int.toNat_of_nonneg hk.le

/-! Concrete stores and configurations used to exercise the theorems. -/

/-- A computable strategy used in the concrete test stores: the score of a
stored vector is its first component (the query vector is ignored).  Chosen
free of rational arithmetic so that test stores evaluate by `decide`. -/
def headScore (_q v : List ℚ) : ℚ :=
  v.headD 0

/-- A vector item with empty metadata. -/
def testItem (id : String) (v : List ℚ) : VectorItem :=
  { id := id, vector := v, metadata := [] }

/-- A one-dimensional store holding the single record `"a" ↦ [1]`, with two
subscribed observers. -/
def testDb1 : ChromaVectorDB :=
  { embedding_dim := 1, similarity_strategy := headScore,
    items := [testItem "a" [1]], observers := [0, 1] }

/-- A one-dimensional store holding `"a" ↦ [1]` and `"b" ↦ [2]`. -/
def testDb2 : ChromaVectorDB :=
  { embedding_dim := 1, similarity_strategy := headScore,
    items := [testItem "a" [1], testItem "b" [2]], observers := [] }

/-- Configuration whose `max_items` is 1. -/
def cfgMax1 : ConfigSingleton := { max_items := 1 }

/-- Configuration whose `max_items` is 2. -/
def cfgMax2 : ConfigSingleton := { max_items := 2 }

/-- Configuration whose similarity floor is 0. -/
def cfgFloor0 : ConfigSingleton := { similarity_threshold := 0 }

/-- Configuration whose similarity floor is 2. -/
def cfgFloor2 : ConfigSingleton := { similarity_threshold := 2 }

/-- Configuration equal to the defaults except for `default_embedding_dim`,
a field no store operation dereferences. -/
def cfgDim64 : ConfigSingleton := { default_embedding_dim := 64 }

/-- Configuration holding exactly the default field values. -/
def cfgDefault : ConfigSingleton := {}

/-! Claim theorems. -/

/-- C1 counterexample: the outcome of `add` on a fixed store changes when the
configuration object's `max_items` is changed between calls, and the outcome
of `query` changes when its `similarity_threshold` is changed — the claim
that later configuration changes have no effect on an already-constructed
store is false.  `cfgMax1` and `cfgMax2` differ only in `max_items`;
`cfgFloor0` and `cfgFloor2` differ only in `similarity_threshold`. -/
theorem C1_counterexample :
    (testDb1.add cfgMax1 "b" [1] none).1 ≠ (testDb1.add cfgMax2 "b" [1] none).1 ∧
    testDb1.query cfgFloor0 [1] 5 none ≠ testDb1.query cfgFloor2 [1] 5 none := by
  exact ⟨by decide, by decide⟩

/-- C1 (amended): the store keeps a reference to the shared configuration
object and re-reads `max_items` at each `add` and `similarity_threshold` at
each `query`, so later changes to those fields do take effect; the calls
depend on the configuration object only through those call-time values
(`default_embedding_dim` in particular never matters). -/
theorem C1_amended_config_dependence (db : ChromaVectorDB) (c1 c2 : ConfigSingleton)
    (id : String) (v : List ℚ) (m : Option Metadata) (q : List ℚ) (k : Int)
    (f : Option (Metadata → Bool))
    (hmax : c1.max_items = c2.max_items)
    (hthr : c1.similarity_threshold = c2.similarity_threshold) :
    db.add c1 id v m = db.add c2 id v m ∧
    db.query c1 q k f = db.query c2 q k f := by
  constructor
  · unfold ChromaVectorDB.add
    rw [hmax]
  · unfold ChromaVectorDB.query
    rw [hthr]

/-- Witness for C1 (amended): `cfgDim64` and `cfgDefault` agree on
`max_items` and `similarity_threshold`, and `add`/`query` cannot tell them
apart on the concrete store `testDb1`. -/
theorem C1_amended_config_dependence_witness :
    cfgDim64.max_items = cfgDefault.max_items ∧
    cfgDim64.similarity_threshold = cfgDefault.similarity_threshold ∧
    (testDb1.add cfgDim64 "b" [1] none = testDb1.add cfgDefault "b" [1] none ∧
      testDb1.query cfgDim64 [1] 5 none = testDb1.query cfgDefault [1] 5 none) :=
  ⟨by decide, rfl,
    C1_amended_config_dependence testDb1 cfgDim64 cfgDefault "b" [1] none [1] 5 none
      (by decide) rfl⟩

/-- C2 counterexample: on a store with two records above the floor, `query`
with `top_k = -1` returns the single best record, not an empty sequence —
Python's `results[:top_k]` with a negative bound drops elements from the end
instead of returning nothing. -/
theorem C2_counterexample :
    testDb2.query cfgFloor0 [1] (-1) none = Except.ok [⟨"b", 2, []⟩] ∧
    testDb2.query cfgFloor0 [1] (-1) none ≠ Except.ok [] := by
  exact ⟨by decide, by decide⟩

/-- C2 (amended): for a query vector of the store's dimension, `query` with
`top_k = 0` returns an empty sequence (negative `top_k` instead follows
Python slice semantics and drops the last `|top_k|` survivors). -/
theorem C2_query_top_k_zero (db : ChromaVectorDB) (config : ConfigSingleton)
    (q : List ℚ) (f : Option (Metadata → Bool))
    (hq : q.length = db.embedding_dim) :
    db.query config q 0 f = Except.ok [] := by
  unfold ChromaVectorDB.query
  simp [hq, pySlice]

/-- Witness for C2 (amended) at the concrete store `testDb2`. -/
theorem C2_query_top_k_zero_witness :
    ([(1 : ℚ)] : List ℚ).length = testDb2.embedding_dim ∧
    testDb2.query cfgFloor0 [1] 0 none = Except.ok [] :=
  ⟨by decide, C2_query_top_k_zero testDb2 cfgFloor0 [1] none (by decide)⟩

/-- C4: adding a vector whose length differs from the store's embedding
dimension fails with the dimension-mismatch `ValueError`, leaves the store
(and hence its cardinality and contents) unchanged, and emits no event. -/
theorem C4_add_dimension_mismatch (db : ChromaVectorDB) (config : ConfigSingleton)
    (id : String) (v : List ℚ) (m : Option Metadata)
    (h : v.length ≠ db.embedding_dim) :
    db.add config id v m =
      (Except.error (DBError.valueError
        ("Vector dimension must be " ++ toString db.embedding_dim)), db, []) := by
  unfold ChromaVectorDB.add
  rw [if_pos h]

/-- Witness for C4: adding the two-dimensional vector `[1, 1]` to the
one-dimensional store `testDb1`. -/
theorem C4_add_dimension_mismatch_witness :
    ([(1 : ℚ), 1] : List ℚ).length ≠ testDb1.embedding_dim ∧
    testDb1.add cfgDefault "c" [1, 1] none =
      (Except.error (DBError.valueError
        ("Vector dimension must be " ++ toString testDb1.embedding_dim)), testDb1, []) :=
  ⟨by decide, C4_add_dimension_mismatch testDb1 cfgDefault "c" [1, 1] none (by decide)⟩

/-- C5: when the store's count equals the configuration's `max_items`, adding
a vector of the correct dimension fails with the capacity `RuntimeError`,
leaves the store unchanged, and emits no event. -/
theorem C5_add_capacity_exceeded (db : ChromaVectorDB) (config : ConfigSingleton)
    (id : String) (v : List ℚ) (m : Option Metadata)
    (hdim : v.length = db.embedding_dim) (hcap : db.count = config.max_items) :
    db.add config id v m =
      (Except.error (DBError.runtimeError "Database capacity reached"), db, []) := by
  unfold ChromaVectorDB.add
  have h1 : ¬ v.length ≠ db.embedding_dim := by simp [hdim]
  have h2 : config.max_items ≤ db.items.length := by
    unfold ChromaVectorDB.count at hcap
    omega
  rw [if_neg h1, if_pos h2]

/-- Witness for C5: `testDb1` holds one record and `cfgMax1.max_items = 1`,
so adding the fresh in-dimension vector `[1]` is rejected. -/
theorem C5_add_capacity_exceeded_witness :
    ([(1 : ℚ)] : List ℚ).length = testDb1.embedding_dim ∧
    testDb1.count = cfgMax1.max_items ∧
    testDb1.add cfgMax1 "b" [1] none =
      (Except.error (DBError.runtimeError "Database capacity reached"), testDb1, []) :=
  ⟨by decide, by decide,
    C5_add_capacity_exceeded testDb1 cfgMax1 "b" [1] none (by decide) (by decide)⟩

/-- C6: updating a present record with a vector of the wrong length fails
with the dimension-mismatch `ValueError` and leaves the whole store — in
particular the record's vector and metadata — unchanged, emitting no event,
even when new metadata was also supplied. -/
theorem C6_update_dimension_mismatch (db : ChromaVectorDB) (id : String)
    (v : List ℚ) (m : Option Metadata)
    (hpresent : hasId db.items id = true) (h : v.length ≠ db.embedding_dim) :
    db.update id (some v) m =
      (Except.error (DBError.valueError
        ("Vector dimension must be " ++ toString db.embedding_dim)), db, []) := by
  unfold ChromaVectorDB.update
  simp [hpresent, h]

/-- Witness for C6: updating record `"a"` of `testDb1` with a
two-dimensional vector and fresh metadata. -/
theorem C6_update_dimension_mismatch_witness :
    hasId testDb1.items "a" = true ∧
    ([(1 : ℚ), 1] : List ℚ).length ≠ testDb1.embedding_dim ∧
    testDb1.update "a" (some [1, 1]) (some [("k", "v")]) =
      (Except.error (DBError.valueError
        ("Vector dimension must be " ++ toString testDb1.embedding_dim)), testDb1, []) :=
  ⟨by decide, by decide,
    C6_update_dimension_mismatch testDb1 "a" [1, 1] (some [("k", "v")])
      (by decide) (by decide)⟩

/-- C9: `clear` empties the store (`count` becomes 0) and its event trace is
the single `clear` event, whatever the prior cardinality. -/
theorem C9_clear_once (db : ChromaVectorDB) :
    (db.clear).1.count = 0 ∧
    (db.clear).2 = [Event.clear "Database cleared"] ∧
    (db.clear).2.length = 1 :=
  ⟨rfl, rfl, rfl⟩

/-- C10: a no-op `update` (no vector, no metadata) on a present id returns
`True`, leaves the store unchanged, and still emits one `update` event,
which `_notify_observers` delivers to every subscribed observer in
subscription order. -/
theorem C10_noop_update_notifies (db : ChromaVectorDB) (id : String)
    (hpresent : hasId db.items id = true) :
    db.update id none none = (Except.ok true, db, [Event.update id]) ∧
    db.notify_observers (Event.update id) =
      db.observers.map (fun o => (o, Event.update id)) := by
  refine ⟨?_, rfl⟩
  unfold ChromaVectorDB.update
  simp [hpresent, applyMetadata]

/-- Witness for C10: the no-op update of record `"a"` in `testDb1`, whose
observer list is `[0, 1]`. -/
theorem C10_noop_update_notifies_witness :
    hasId testDb1.items "a" = true ∧
    (testDb1.update "a" none none = (Except.ok true, testDb1, [Event.update "a"]) ∧
      testDb1.notify_observers (Event.update "a") =
        testDb1.observers.map (fun o => (o, Event.update "a"))) :=
  ⟨by decide, C10_noop_update_notifies testDb1 "a" (by decide)⟩

/-- The result `query` returns in the witness of C3: both records of
`testDb2`, best first. -/
def c3res : List QueryResult := [⟨"b", 2, []⟩, ⟨"a", 1, []⟩]

/-- C3: for a positive `top_k`, a successful `query` returns at most `top_k`
entries, every returned score reaches the configuration's (call-time)
similarity floor, and the entries are sorted in descending order of score. -/
theorem C3_query_bounds (db : ChromaVectorDB) (config : ConfigSingleton)
    (q : List ℚ) (k : Int) (f : Option (Metadata → Bool)) (res : List QueryResult)
    (hk : 0 < k) (h : db.query config q k f = Except.ok res) :
    (res.length : Int) ≤ k ∧
    (∀ r ∈ res, config.similarity_threshold ≤ r.similarity) ∧
    List.Sorted descBySim res := by
  unfold ChromaVectorDB.query at h
  by_cases hdim : q.length ≠ db.embedding_dim
  · rw [if_pos hdim] at h
    exact absurd h (by simp)
  · rw [if_neg hdim] at h
    simp only [Except.ok.injEq] at h
    subst h
    refine ⟨pySlice_length_le _ _ hk, ?_, ?_⟩
    · intro r hr
      have hr1 : r ∈ List.insertionSort descBySim _ := (pySlice_sublist _ _).subset hr
      rw [List.mem_insertionSort] at hr1
      rw [List.mem_filterMap] at hr1
      obtain ⟨item, _, heq⟩ := hr1
      by_cases hf : matchesFilter f item.metadata = true
      · rw [if_pos hf] at heq
        by_cases hs : config.similarity_threshold ≤ db.similarity_strategy q item.vector
        · rw [if_pos hs] at heq
          rw [Option.some.injEq] at heq
          rw [← heq]
          exact hs
        · rw [if_neg hs] at heq
          exact absurd heq (by simp)
      · rw [if_neg hf] at heq
        exact absurd heq (by simp)
    · exact List.Pairwise.sublist (pySlice_sublist _ _) (List.sorted_insertionSort _ _)

/-- Witness for C3 at the concrete store `testDb2` with `top_k = 2`. -/
theorem C3_query_bounds_witness :
    (0 : Int) < 2 ∧ testDb2.query cfgFloor0 [1] 2 none = Except.ok c3res ∧
    ((c3res.length : Int) ≤ 2 ∧
      (∀ r ∈ c3res, cfgFloor0.similarity_threshold ≤ r.similarity) ∧
      List.Sorted descBySim c3res) :=
  ⟨by decide, by decide,
    C3_query_bounds testDb2 cfgFloor0 [1] 2 none c3res (by decide) (by decide)⟩

/-- C7: `batch_add` always completes with a full account of the batch:
successes and failures together cover every input item, `failed_count`
matches the failure list, and the failed ids form a subsequence of the input
ids — so a failing item never prevents later items from being attempted. -/
theorem C7_batch_add_isolation (config : ConfigSingleton) (items : List BatchItem)
    (db : ChromaVectorDB) :
    (ChromaVectorDB.batch_add db config items).1.success_count +
      (ChromaVectorDB.batch_add db config items).1.failed_count = items.length ∧
    (ChromaVectorDB.batch_add db config items).1.failed_count =
      (ChromaVectorDB.batch_add db config items).1.failed_items.length ∧
    List.Sublist
      ((ChromaVectorDB.batch_add db config items).1.failed_items.map Prod.fst)
      (items.map BatchItem.id) := by
  induction items generalizing db with
  | nil => simp [ChromaVectorDB.batch_add]
  | cons item rest ih =>
    rcases hadd : ChromaVectorDB.add db config item.id item.vector item.metadata
      with ⟨res, db1, evs⟩
    cases res with
    | ok b =>
      obtain ⟨ih1, ih2, ih3⟩ := ih db1
      simp only [ChromaVectorDB.batch_add, hadd, List.length_cons] at *
      refine ⟨by omega, ih2, List.Sublist.cons _ ih3⟩
    | error e =>
      obtain ⟨ih1, ih2, ih3⟩ := ih db1
      simp only [ChromaVectorDB.batch_add, hadd, List.length_cons] at *
      refine ⟨by omega, ?_, ?_⟩
      · simp [ih2]
      · simp only [List.map_cons]
        exact List.Sublist.cons₂ _ ih3

/-- C8: the cosine strategy is total — when either argument has zero norm it
returns `0.0` without dividing, and on the dividing branch the divisor, the
product of the two norms, is nonzero. -/
theorem C8_cosine_total (a b : List ℝ) :
    (npLinalgNorm a = 0 ∨ npLinalgNorm b = 0 →
      CosineSimilarity.calculate a b = 0) ∧
    (npLinalgNorm a ≠ 0 → npLinalgNorm b ≠ 0 →
      npLinalgNorm a * npLinalgNorm b ≠ 0 ∧
      CosineSimilarity.calculate a b =
        npDot a b / (npLinalgNorm a * npLinalgNorm b)) := by
  constructor
  · intro h
    unfold CosineSimilarity.calculate
    rw [if_pos h]
  · intro ha hb
    refine ⟨mul_ne_zero ha hb, ?_⟩
    unfold CosineSimilarity.calculate
    rw [if_neg (not_or.mpr ⟨ha, hb⟩)]

/-- Witness for C8: the zero branch at the zero vector `[0]` and the nonzero
divisor at `[1]`. -/
theorem C8_cosine_total_witness :
    (npLinalgNorm [(0 : ℝ)] = 0 ∨ npLinalgNorm [(1 : ℝ)] = 0) ∧
    CosineSimilarity.calculate [(0 : ℝ)] [(1 : ℝ)] = 0 ∧
    npLinalgNorm [(1 : ℝ)] ≠ 0 ∧
    npLinalgNorm [(1 : ℝ)] * npLinalgNorm [(1 : ℝ)] ≠ 0 := by
  have hz : npLinalgNorm [(0 : ℝ)] = 0 := by simp [npLinalgNorm]
  have h1 : npLinalgNorm [(1 : ℝ)] ≠ 0 := by simp [npLinalgNorm]
  exact ⟨Or.inl hz, (C8_cosine_total [0] [1]).1 (Or.inl hz), h1,
    ((C8_cosine_total [1] [1]).2 h1 h1).1⟩

end Chroma
